import Mathlib

/-!
Verification of the `calendars` library (Rust): shallow embedding of its
conversion engine and proofs about the embedded definitions.

Conventions of the embedding:
* Rust `i64` is embedded as `Int`.  The library's arithmetic stays far below
  the `i64` bounds on every input considered here, so wrap-around is not
  modelled.
* Rust `%` on integers is truncated remainder, embedded as `Int.tmod`.
* `math::floor_div` is computed in the source via `f64` division and `floor`;
  that computation agrees with the exact floored quotient `Int.fdiv`
  whenever the operands are below 2^52 in magnitude, which covers every call
  the library itself makes.  It is embedded as `Int.fdiv`.
* `math::sum` iterates an unbounded iterator `(k..)` while a predicate holds;
  the embedding adds an explicit fuel argument (`FUEL` at call sites), which
  is far larger than the iteration count of any terminating call.  The
  summands are small integers, so the source's `f64` accumulation is exact
  and is embedded as exact `Int` addition.
* The Old Hindu calendars compute with `f64` constants such as
  `365.0 + 279457.0/1080000.0`.  The embedding idealizes `f64` as exact
  rational arithmetic (type `Q` below, fractions without normalization).
* Rust `panic!` / `.unwrap()` on `None` are embedded as `Option.none`
  results of the functions that can reach them.
-/

namespace Calendars

/-- `math::modulus`: positive remainder `((a % b) + b) % b`, with Rust `%`
being truncated remainder (`Int.tmod`). -/
def modulus (a b : Int) : Int := (a.tmod b + b).tmod b

/-- `math::floor_div`: floored quotient of two integers.  The source computes
it through `f64` division; exact for all operand sizes the library uses. -/
def floor_div (a b : Int) : Int := a.fdiv b

/-- `math::amod`: adjusted positive remainder `modulus(a-1, b) + 1`. -/
def amod (a b : Int) : Int := modulus (a - 1) b + 1

/-- `math::sum`: accumulates `f k + f (k+1) + ...` while `p` holds, stopping
at the first failure of `p`.  `fuel` bounds the recursion (the source
iterates an unbounded range). -/
def sumWhile (f : Int → Int) (p : Int → Bool) (k : Int) : Nat → Int
  | 0 => 0
  | n + 1 => if p k then f k + sumWhile f p (k + 1) n else 0

/-- Fuel used at every `sumWhile` call site; far beyond the iteration count
of any terminating search in the library. -/
def FUEL : Nat := 1000000

/-! ## Gregorian calendar (`gregorian.rs`) -/

/-- Gregorian date `{year, month, day}`. -/
structure Gregorian where
  year : Int
  month : Int
  day : Int
deriving DecidableEq

/-- `last_day_of_gregorian_month`.  The source indexes a 12-entry array with
`month - 1` (panicking outside 1..=12); the embedding returns the list
default `0` there, a case no claim exercises. -/
def last_day_of_gregorian_month (month year : Int) : Int :=
  if month = 2 ∧ modulus year 4 = 0 ∧ modulus year 400 ∉ ([100, 200, 300] : List Int) then
    29
  else
    ([31, 28, 31, 30, 31, 30, 31, 31, 30, 31, 30, 31] : List Int).getD (month - 1).toNat 0

/-- `absolute_from_gregorian`. -/
def absolute_from_gregorian (d : Gregorian) : Int :=
  d.day
    + sumWhile (fun m => last_day_of_gregorian_month m d.year)
        (fun m => decide (m < d.month)) 1 FUEL
    + 365 * (d.year - 1)
    + floor_div (d.year - 1) 4
    - floor_div (d.year - 1) 100
    + floor_div (d.year - 1) 400

/-- `gregorian_from_absolute`. -/
def gregorian_from_absolute (absolute_date : Int) : Gregorian :=
  let d_0 := absolute_date - 1
  let n_400 := floor_div d_0 146097
  let d_1 := modulus d_0 146097
  let n_100 := floor_div d_1 36524
  let d_2 := modulus d_1 36524
  let n_4 := floor_div d_2 1461
  let d_3 := modulus d_2 1461
  let n_1 := floor_div d_3 365
  let year :=
    if n_100 = 4 ∨ n_1 = 4 then
      400 * n_400 + 100 * n_100 + 4 * n_4 + n_1
    else
      400 * n_400 + 100 * n_100 + 4 * n_4 + n_1 + 1
  let month :=
    sumWhile (fun _ => 1)
      (fun m =>
        decide (absolute_date >
          absolute_from_gregorian ⟨year, m, last_day_of_gregorian_month m year⟩)) 1 FUEL + 1
  let day := absolute_date - (absolute_from_gregorian ⟨year, month, 1⟩ - 1)
  ⟨year, month, day⟩

/-! ## ISO week calendar (`iso.rs`) -/

/-- ISO week date `{year, week, day}`. -/
structure Iso where
  year : Int
  week : Int
  day : Int
deriving DecidableEq

/-- `kday_on_or_before`: most recent day-of-week `k` on or before the date. -/
def kday_on_or_before (absolute_date k : Int) : Int :=
  absolute_date - modulus (absolute_date - k) 7

/-- `absolute_from_iso`. -/
def absolute_from_iso (d : Iso) : Int :=
  kday_on_or_before (absolute_from_gregorian ⟨d.year, 1, 4⟩) 1
    + 7 * (d.week - 1) + (d.day - 1)

/-- `iso_from_absolute`.  The source divides by 7 with Rust `/`, which is
truncated division, embedded as `Int.tdiv`. -/
def iso_from_absolute (absolute_date : Int) : Iso :=
  let approx := (gregorian_from_absolute (absolute_date - 3)).year
  let year :=
    if absolute_date ≥ absolute_from_iso ⟨approx + 1, 1, 1⟩ then approx + 1 else approx
  let week := (absolute_date - absolute_from_iso ⟨year, 1, 1⟩).tdiv 7 + 1
  let day := if modulus absolute_date 7 = 0 then 7 else modulus absolute_date 7
  ⟨year, week, day⟩

/-! ## Julian calendar (`julian.rs`) -/

/-- Julian date `{year, month, day}`. -/
structure Julian where
  year : Int
  month : Int
  day : Int
deriving DecidableEq

/-- `last_day_of_julian_month`; array indexing embedded as in the Gregorian
case. -/
def last_day_of_julian_month (month year : Int) : Int :=
  if month = 2 ∧ modulus year 4 = 0 then
    29
  else
    ([31, 28, 31, 30, 31, 30, 31, 31, 30, 31, 30, 31] : List Int).getD (month - 1).toNat 0

/-- `absolute_from_julian`. -/
def absolute_from_julian (d : Julian) : Int :=
  d.day
    + sumWhile (fun m => last_day_of_julian_month m d.year)
        (fun m => decide (m < d.month)) 1 FUEL
    + 365 * (d.year - 1)
    + floor_div (d.year - 1) 4
    - 2

/-- `julian_from_absolute`. -/
def julian_from_absolute (absolute_date : Int) : Julian :=
  let approx := floor_div (absolute_date + 2) 366
  let year := approx
    + sumWhile (fun _ => 1)
        (fun y => decide (absolute_date ≥ absolute_from_julian ⟨y + 1, 1, 1⟩)) approx FUEL
  let month := 1
    + sumWhile (fun _ => 1)
        (fun m =>
          decide (absolute_date >
            absolute_from_julian ⟨year, m, last_day_of_julian_month m year⟩)) 1 FUEL
  let day := absolute_date - (absolute_from_julian ⟨year, month, 1⟩ - 1)
  ⟨year, month, day⟩

/-! ## Islamic calendar (`islamic.rs`) -/

/-- Islamic date `{year, month, day}`. -/
structure Islamic where
  year : Int
  month : Int
  day : Int
deriving DecidableEq

/-- `islamic_leap_year`. -/
def islamic_leap_year (year : Int) : Bool :=
  decide (modulus (14 + 11 * year) 30 < 11)

/-- `last_day_of_islamic_month`. -/
def last_day_of_islamic_month (month year : Int) : Int :=
  if modulus month 2 ≠ 0 ∨ (month = 12 ∧ islamic_leap_year year) then 30 else 29

/-- `absolute_from_islamic`. -/
def absolute_from_islamic (d : Islamic) : Int :=
  d.day + 29 * (d.month - 1) + floor_div d.month 2 + (d.year - 1) * 354
    + floor_div (3 + 11 * d.year) 30 + 227014

/-- `islamic_from_absolute`: all-zero sentinel for `absolute_date < 227014`,
otherwise approximate-then-search. -/
def islamic_from_absolute (absolute_date : Int) : Islamic :=
  if absolute_date < 227014 then
    ⟨0, 0, 0⟩
  else
    let approx := floor_div (absolute_date - 227014) 355
    let year := approx
      + sumWhile (fun _ => 1)
          (fun y => decide (absolute_date ≥ absolute_from_islamic ⟨y + 1, 1, 1⟩)) approx FUEL
    let month := 1
      + sumWhile (fun _ => 1)
          (fun m =>
            decide (absolute_date >
              absolute_from_islamic ⟨year, m, last_day_of_islamic_month m year⟩)) 1 FUEL
    let day := absolute_date - (absolute_from_islamic ⟨year, month, 1⟩ - 1)
    ⟨year, month, day⟩

/-! ## French Revolutionary calendar (`french.rs`) -/

/-- French Revolutionary date `{year, month, day}`. -/
structure French where
  year : Int
  month : Int
  day : Int
deriving DecidableEq

/-- `french_leap_year`. -/
def french_leap_year (f_year : Int) : Bool :=
  decide (f_year ∈ ([3, 7, 11] : List Int)) || decide (f_year ∈ ([15, 20] : List Int))
    || (decide (f_year > 20) && decide (modulus f_year 4 = 0)
        && !(decide (modulus f_year 400 ∈ ([100, 200, 300] : List Int)))
        && decide (modulus f_year 4000 ≠ 0))

/-- `french_last_day_of_month`. -/
def french_last_day_of_month (month year : Int) : Int :=
  if month < 13 then 30 else if french_leap_year year then 6 else 5

/-- `absolute_from_french`. -/
def absolute_from_french (d : French) : Int :=
  654414 + 365 * (d.year - 1)
    + (if d.year < 20 then
        floor_div d.year 4
      else
        floor_div (d.year - 1) 4 - floor_div (d.year - 1) 100 + floor_div (d.year - 1) 400
          - floor_div (d.year - 1) 4000)
    + 30 * (d.month - 1) + d.day

/-- `french_from_absolute`: all-zero sentinel for `absolute_date < 654415`,
otherwise approximate-then-search. -/
def french_from_absolute (absolute_date : Int) : French :=
  if absolute_date < 654415 then
    ⟨0, 0, 0⟩
  else
    let approx := floor_div (absolute_date - 654414) 366
    let year := approx
      + sumWhile (fun _ => 1)
          (fun y => decide (absolute_date ≥ absolute_from_french ⟨y + 1, 1, 1⟩)) approx FUEL
    let month := 1
      + sumWhile (fun _ => 1)
          (fun m =>
            decide (absolute_date >
              absolute_from_french ⟨year, m, french_last_day_of_month m year⟩)) 1 FUEL
    let day := absolute_date - (absolute_from_french ⟨year, month, 1⟩ - 1)
    ⟨year, month, day⟩

/-! ## Hebrew calendar (`hebrew.rs`) -/

/-- Hebrew date `{year, month, day}`. -/
structure Hebrew where
  year : Int
  month : Int
  day : Int
deriving DecidableEq

/-- `hebrew_leap_year`. -/
def hebrew_leap_year (year : Int) : Bool :=
  decide (modulus (year * 7 + 1) 19 < 7)

/-- `last_month_of_hebrew_year`. -/
def last_month_of_hebrew_year (year : Int) : Int :=
  if hebrew_leap_year year then 13 else 12

/-- `hebrew_calendar_elapsed_days`: mean conjunction of Tishri in
parts/hours/days fixed-point arithmetic, followed by the postponement
rules. -/
def hebrew_calendar_elapsed_days (year : Int) : Int :=
  let months_elapsed := 235 * floor_div (year - 1) 19
    + 12 * modulus (year - 1) 19
    + floor_div (modulus (year - 1) 19 * 7 + 1) 19
  let parts_elapsed := 204 + 793 * modulus months_elapsed 1080
  let hours_elapsed := 5 + 12 * months_elapsed + 793 * floor_div months_elapsed 1080
    + floor_div parts_elapsed 1080
  let day := 1 + 29 * months_elapsed + floor_div hours_elapsed 24
  let parts := 1080 * modulus hours_elapsed 24 + modulus parts_elapsed 1080
  let alternative_day :=
    if parts ≥ 19440
        ∨ (modulus day 7 = 2 ∧ parts ≥ 9924 ∧ ¬hebrew_leap_year year)
        ∨ (modulus day 7 = 1 ∧ parts ≥ 16789 ∧ hebrew_leap_year (year - 1)) then
      day + 1
    else
      day
  if modulus alternative_day 7 ∈ ([0, 3, 5] : List Int) then
    alternative_day + 1
  else
    alternative_day

/-- `days_in_hebrew_year`. -/
def days_in_hebrew_year (year : Int) : Int :=
  hebrew_calendar_elapsed_days (year + 1) - hebrew_calendar_elapsed_days year

/-- `long_heshvan`. -/
def long_heshvan (year : Int) : Bool :=
  decide (modulus (days_in_hebrew_year year) 10 = 5)

/-- `short_kislev`. -/
def short_kislev (year : Int) : Bool :=
  decide (modulus (days_in_hebrew_year year) 10 = 3)

/-- `last_day_of_hebrew_month`. -/
def last_day_of_hebrew_month (month year : Int) : Int :=
  if month ∈ ([2, 4, 6, 10, 13] : List Int)
      ∨ (month = 12 ∧ ¬hebrew_leap_year year)
      ∨ (month = 8 ∧ ¬long_heshvan year)
      ∨ (month = 9 ∧ short_kislev year) then
    29
  else
    30

/-- `absolute_from_hebrew`: months counted from Tishri (month 7), wrapping
through the end of the year for months 1..6. -/
def absolute_from_hebrew (d : Hebrew) : Int :=
  d.day
    + (if d.month < 7 then
        sumWhile (fun m => last_day_of_hebrew_month m d.year)
            (fun m => decide (m ≤ last_month_of_hebrew_year d.year)) 7 FUEL
          + sumWhile (fun m => last_day_of_hebrew_month m d.year)
              (fun m => decide (m < d.month)) 1 FUEL
      else
        sumWhile (fun m => last_day_of_hebrew_month m d.year)
          (fun m => decide (m < d.month)) 7 FUEL)
    + hebrew_calendar_elapsed_days d.year
    - 1373429

/-- `hebrew_from_absolute`.  NB: the source computes the year approximation
with `modulus`, not `floor_div`. -/
def hebrew_from_absolute (absolute_date : Int) : Hebrew :=
  let approx := modulus (absolute_date + 1373429) 366
  let year := approx
    + sumWhile (fun _ => 1)
        (fun y => decide (absolute_date ≥ absolute_from_hebrew ⟨y + 1, 7, 1⟩)) approx FUEL
  let start := if absolute_date < absolute_from_hebrew ⟨year, 1, 1⟩ then 7 else 1
  let month := start
    + sumWhile (fun _ => 1)
        (fun m =>
          decide (absolute_date >
            absolute_from_hebrew ⟨year, m, last_day_of_hebrew_month m year⟩)) start FUEL
  let day := absolute_date - (absolute_from_hebrew ⟨year, month, 1⟩ - 1)
  ⟨year, month, day⟩

/-! ## Mayan calendars (`mayan.rs`) -/

/-- Mayan Long Count `{baktun, katun, tun, uinal, kin}`. -/
structure MayanLongCount where
  baktun : Int
  katun : Int
  tun : Int
  uinal : Int
  kin : Int
deriving DecidableEq

/-- Goodman-Martinez-Thompson correlation constant. -/
def MAYAN_DAYS_BEFORE_ABSOLUTE_ZERO : Int := 1137142

/-- `absolute_from_mayan_long_count`. -/
def absolute_from_mayan_long_count (d : MayanLongCount) : Int :=
  d.baktun * 144000 + d.katun * 7200 + d.tun * 360 + d.uinal * 20 + d.kin
    - MAYAN_DAYS_BEFORE_ABSOLUTE_ZERO

/-- `mayan_long_count_from_absolute`. -/
def mayan_long_count_from_absolute (absolute_date : Int) : MayanLongCount :=
  let long_count := absolute_date + MAYAN_DAYS_BEFORE_ABSOLUTE_ZERO
  let baktun := floor_div long_count 144000
  let day_of_baktun := modulus long_count 144000
  let katun := floor_div day_of_baktun 7200
  let day_of_katun := modulus day_of_baktun 7200
  let tun := floor_div day_of_katun 360
  let day_of_tun := modulus day_of_katun 360
  let uinal := floor_div day_of_tun 20
  let kin := modulus day_of_tun 20
  ⟨baktun, katun, tun, uinal, kin⟩

/-- Mayan Haab date `{day, month}` (365-day cycle, no year). -/
structure MayanHaab where
  day : Int
  month : Int
deriving DecidableEq

/-- Haab date at long count 0.0.0.0.0. -/
def MAYAN_HAAB_AT_EPOCH : MayanHaab := ⟨8, 18⟩

/-- `mayan_haab_from_absolute`. -/
def mayan_haab_from_absolute (absolute_date : Int) : MayanHaab :=
  let long_count := absolute_date + MAYAN_DAYS_BEFORE_ABSOLUTE_ZERO
  let day_of_haab :=
    modulus (long_count + MAYAN_HAAB_AT_EPOCH.day + 20 * (MAYAN_HAAB_AT_EPOCH.month - 1)) 365
  let day := modulus day_of_haab 20
  let month := floor_div day_of_haab 20 + 1
  ⟨day, month⟩

/-- `mayan_haab_difference`. -/
def mayan_haab_difference (d1 d2 : MayanHaab) : Int :=
  modulus (20 * (d2.month - d1.month) + (d2.day - d1.day)) 365

/-- `mayan_haab_on_or_before`. -/
def mayan_haab_on_or_before (d : MayanHaab) (absolute_date : Int) : Int :=
  absolute_date
    - modulus (absolute_date - mayan_haab_difference (mayan_haab_from_absolute 0) d) 365

/-- Mayan Tzolkin date `{number, name}` (260-day cycle, no year). -/
structure MayanTzolkin where
  number : Int
  name : Int
deriving DecidableEq

/-- Tzolkin date at long count 0.0.0.0.0. -/
def MAYAN_TZOLKIN_AT_EPOCH : MayanTzolkin := ⟨4, 20⟩

/-- `mayan_tzolkin_from_absolute`. -/
def mayan_tzolkin_from_absolute (absolute_date : Int) : MayanTzolkin :=
  let long_count := absolute_date + MAYAN_DAYS_BEFORE_ABSOLUTE_ZERO
  let number := amod (long_count + MAYAN_TZOLKIN_AT_EPOCH.number) 13
  let name := amod (long_count + MAYAN_TZOLKIN_AT_EPOCH.name) 20
  ⟨number, name⟩

/-- `mayan_tzolkin_difference`.  NB: the source computes
`number_difference` as `d2.number - d2.number`, which is always zero. -/
def mayan_tzolkin_difference (d1 d2 : MayanTzolkin) : Int :=
  let number_difference := d2.number - d2.number
  let name_difference := d2.name - d1.name
  modulus (number_difference + 13 * modulus (3 * (number_difference - name_difference)) 20) 260

/-- `mayan_tzolkin_on_or_before`. -/
def mayan_tzolkin_on_or_before (d : MayanTzolkin) (absolute_date : Int) : Int :=
  absolute_date
    - modulus (absolute_date - mayan_tzolkin_difference (mayan_tzolkin_from_absolute 0) d) 260

/-- `mayan_haab_tzolkin_on_or_before`: combined calendar-round lookup,
`none` when the mod-5 reachability test fails. -/
def mayan_haab_tzolkin_on_or_before (dh : MayanHaab) (dt : MayanTzolkin)
    (absolute_date : Int) : Option Int :=
  let haab_difference := mayan_haab_difference (mayan_haab_from_absolute 0) dh
  let tzolkin_difference := mayan_tzolkin_difference (mayan_tzolkin_from_absolute 0) dt
  let difference := tzolkin_difference - haab_difference
  if modulus difference 5 = 0 then
    some (absolute_date
      - modulus (absolute_date - (haab_difference + 365 * difference)) 18980)
  else
    none

/-! ## Old Hindu calendars (`hindu.rs`)

The source computes with `f64`.  The embedding idealizes `f64` as exact
rational arithmetic: `Q` is a fraction type (numerator, positive
denominator) without normalization, with Rust's float `%` (`fmod`, remainder
truncated toward zero) and `floor` mapped to their exact counterparts. -/

/-- Exact fraction; all operations below keep the denominator positive. -/
structure Q where
  num : Int
  den : Int
deriving DecidableEq

def Q.ofInt (n : Int) : Q := ⟨n, 1⟩

def Q.add (a b : Q) : Q := ⟨a.num * b.den + b.num * a.den, a.den * b.den⟩

def Q.sub (a b : Q) : Q := ⟨a.num * b.den - b.num * a.den, a.den * b.den⟩

def Q.mul (a b : Q) : Q := ⟨a.num * b.num, a.den * b.den⟩

def Q.div (a b : Q) : Q :=
  let n := a.num * b.den
  let d := a.den * b.num
  if d < 0 then ⟨-n, -d⟩ else ⟨n, d⟩

instance : Add Q := ⟨Q.add⟩

instance : Sub Q := ⟨Q.sub⟩

instance : Mul Q := ⟨Q.mul⟩

instance : Div Q := ⟨Q.div⟩

/-- Exact floor (`f64::floor`), valid for positive denominators. -/
def Q.floor (a : Q) : Int := a.num.fdiv a.den

/-- Truncation toward zero, valid for positive denominators. -/
def Q.trunc (a : Q) : Int := a.num.tdiv a.den

/-- Rust float `%`: remainder with the sign of the dividend. -/
def Q.fmod (a b : Q) : Q := a - b * Q.ofInt (Q.trunc (a / b))

/-- `math::modulus` instantiated at `f64`: `((a % b) + b) % b`. -/
def modulusQ (a b : Q) : Q := Q.fmod (Q.fmod a b + b) b

def SOLAR_SIDEREAL_YEAR : Q := Q.ofInt 365 + Q.ofInt 279457 / Q.ofInt 1080000

def SOLAR_MONTH : Q := SOLAR_SIDEREAL_YEAR / Q.ofInt 12

def LUNAR_SIDEREAL_MONTH : Q := Q.ofInt 27 + Q.ofInt 4644439 / Q.ofInt 14438334

def LUNAR_SYNODIC_MONTH : Q := Q.ofInt 29 + Q.ofInt 7087771 / Q.ofInt 13358334

/-- Old Hindu Solar date `{year, month, day}`. -/
structure OldHinduSolar where
  year : Int
  month : Int
  day : Int
deriving DecidableEq

/-- `solar_longitude`. -/
def solar_longitude (days : Q) : Q :=
  modulusQ (days / SOLAR_SIDEREAL_YEAR) (Q.ofInt 1) * Q.ofInt 360

/-- `zodiac`. -/
def zodiac (days : Q) : Int := (solar_longitude days / Q.ofInt 30).floor + 1

/-- `old_hindu_solar_from_absolute`. -/
def old_hindu_solar_from_absolute (absolute_date : Int) : OldHinduSolar :=
  let h_date := Q.ofInt absolute_date + Q.ofInt 1132959 + Q.ofInt 1 / Q.ofInt 4
  let year := (h_date / SOLAR_SIDEREAL_YEAR).floor
  let month := zodiac h_date
  let day := (modulusQ h_date SOLAR_MONTH).floor + 1
  ⟨year, month, day⟩

/-- `absolute_from_old_hindu_solar`. -/
def absolute_from_old_hindu_solar (d : OldHinduSolar) : Int :=
  (Q.ofInt d.year * SOLAR_SIDEREAL_YEAR + Q.ofInt (d.month - 1) * SOLAR_MONTH
    + Q.ofInt d.day - Q.ofInt 1 / Q.ofInt 4 - Q.ofInt 1132959).floor

/-- Old Hindu Lunar date `{year, month, leap_month, day}`. -/
structure OldHinduLunar where
  year : Int
  month : Int
  leap_month : Bool
  day : Int
deriving DecidableEq

/-- `lunar_longitude`. -/
def lunar_longitude (days : Q) : Q :=
  modulusQ (days / LUNAR_SIDEREAL_MONTH) (Q.ofInt 1) * Q.ofInt 360

/-- `lunar_phase`. -/
def lunar_phase (days : Q) : Int :=
  1 + (modulusQ (lunar_longitude days - solar_longitude days) (Q.ofInt 360) / Q.ofInt 12).floor

/-- `new_moon`. -/
def new_moon (days : Q) : Q := days - modulusQ days LUNAR_SYNODIC_MONTH

/-- `old_hindu_lunar_from_absolute`. -/
def old_hindu_lunar_from_absolute (absolute_date : Int) : OldHinduLunar :=
  let h_date := absolute_date + 1132959
  let sunrise := Q.ofInt h_date + Q.ofInt 1 / Q.ofInt 4
  let last_new_moon := new_moon sunrise
  let next_new_moon := last_new_moon + LUNAR_SYNODIC_MONTH
  let day := lunar_phase sunrise
  let month := amod (zodiac last_new_moon + 1) 12
  let leap_month := decide (zodiac last_new_moon = zodiac next_new_moon)
  let next_month := next_new_moon + (if leap_month then LUNAR_SYNODIC_MONTH else Q.ofInt 0)
  let year := (next_month / SOLAR_SIDEREAL_YEAR).floor
  ⟨year, month, leap_month, day⟩

/-- `old_hindu_lunar_precedes`: year, then month, then leap-before-plain,
then day. -/
def old_hindu_lunar_precedes (d1 d2 : OldHinduLunar) : Bool :=
  decide (d1.year < d2.year)
    || (decide (d1.year = d2.year)
        && (decide (d1.month < d2.month)
            || (decide (d1.month = d2.month)
                && ((d1.leap_month && !d2.leap_month)
                    || (decide (d1.leap_month = d2.leap_month) && decide (d1.day < d2.day))))))

/-- `absolute_from_old_hindu_lunar`: approximate, search forward while the
forward conversion precedes the target, then verify by full equality. -/
def absolute_from_old_hindu_lunar (d : OldHinduLunar) : Option Int :=
  let years := d.year
  let months := d.month - 2
  let approx := (Q.ofInt years * SOLAR_SIDEREAL_YEAR).floor
    + (Q.ofInt months * LUNAR_SYNODIC_MONTH).floor - 1132959
  let try_value := approx
    + sumWhile (fun _ => 1)
        (fun i => old_hindu_lunar_precedes (old_hindu_lunar_from_absolute i) d) approx FUEL
  if old_hindu_lunar_from_absolute try_value = d then some try_value else none

/-! ## Generic date abstraction (`utility.rs`)

`Date` is the type-erased container; `CalendarDate` models the boxed
`dyn Calendar` trait object.  The trait methods `to_absolute` that can reach
`panic!` (bare Mayan Haab and Tzolkin) or `.unwrap()` of `None`
(Old Hindu Lunar) are embedded as `Option`-valued, with `none` for the
fatal failure. -/

def GREGORIAN_MONTH_NAMES : List String :=
  ["January", "February", "March", "April", "May", "June", "July", "August",
   "September", "October", "November", "December"]

def ISLAMIC_MONTH_NAMES : List String :=
  ["Muharram", "Safar", "Rabi I", "Rabi II", "Jumada I", "Jumada II", "Rajab",
   "Sha\x27 Ban", "Ramadan", "Shawwal", "Dhu al-Qada", "Dhu al-Hijjah"]

def HEBREW_MONTH_NAMES : List String :=
  ["Nisan", "Iyyar", "Sivan", "Tammuz", "Av", "Elul", "Tishri", "Heshvan",
   "Kislev", "Teveth", "Shevat", "Adar ", "Adar I", "Adar II"]

def FRENCH_MONTH_NAMES : List String :=
  ["Vendémiare", "Brumaire", "Frimaire", "Nivôse", "Pluviôse", "Ventôse",
   "Germinal", "Floréal", "Prairial", "Messidor", "Thermidor", "Fructidor",
   "Sansculottides"]

def HINDU_SOLAR_MONTH_NAMES : List String :=
  ["Mesha", "Vrshabha", "Mithuna", "Karka", "Simha", "Kanya", "Tula",
   "Vrischika", "Dhanus", "Makara", "Kumbha", "Mina"]

def HINDU_LUNAR_MONTH_NAMES : List String :=
  ["Chaitra", "Vaisakha", "Jyaishtha", "Ashadha", "Sravana", "Bhadrapada",
   "Asvina", "Kartika", "Margasira", "Pausha", "Magha", "Phalguna"]

/-- Type-erased date: calendar tag, raw components, component names, month
names. -/
structure Date where
  calendar : String
  components : List Int
  component_names : List String
  month_names : List String
deriving DecidableEq

/-- Boxed calendar-specific date (`Box<dyn Calendar>`). -/
inductive CalendarDate where
  | gregorian : Gregorian → CalendarDate
  | iso : Iso → CalendarDate
  | julian : Julian → CalendarDate
  | islamic : Islamic → CalendarDate
  | hebrew : Hebrew → CalendarDate
  | mayanLongCount : MayanLongCount → CalendarDate
  | mayanHaab : MayanHaab → CalendarDate
  | mayanTzolkin : MayanTzolkin → CalendarDate
  | french : French → CalendarDate
  | oldHinduSolar : OldHinduSolar → CalendarDate
  | oldHinduLunar : OldHinduLunar → CalendarDate
deriving DecidableEq

/-- Component accessors of `*_from_date`.  The source indexes the component
vector (panicking when it is too short); the embedding defaults missing
entries to `0`, a case no claim exercises. -/
def gregorian_from_date (d : Date) : Gregorian :=
  ⟨d.components.getD 0 0, d.components.getD 1 0, d.components.getD 2 0⟩

def iso_from_date (d : Date) : Iso :=
  ⟨d.components.getD 0 0, d.components.getD 1 0, d.components.getD 2 0⟩

def julian_from_date (d : Date) : Julian :=
  ⟨d.components.getD 0 0, d.components.getD 1 0, d.components.getD 2 0⟩

def islamic_from_date (d : Date) : Islamic :=
  ⟨d.components.getD 0 0, d.components.getD 1 0, d.components.getD 2 0⟩

def hebrew_from_date (d : Date) : Hebrew :=
  ⟨d.components.getD 0 0, d.components.getD 1 0, d.components.getD 2 0⟩

def mayan_long_count_from_date (d : Date) : MayanLongCount :=
  ⟨d.components.getD 0 0, d.components.getD 1 0, d.components.getD 2 0,
   d.components.getD 3 0, d.components.getD 4 0⟩

def mayan_haab_from_date (d : Date) : MayanHaab :=
  ⟨d.components.getD 0 0, d.components.getD 1 0⟩

def mayan_tzolkin_from_date (d : Date) : MayanTzolkin :=
  ⟨d.components.getD 0 0, d.components.getD 1 0⟩

def french_from_date (d : Date) : French :=
  ⟨d.components.getD 0 0, d.components.getD 1 0, d.components.getD 2 0⟩

def old_hindu_solar_from_date (d : Date) : OldHinduSolar :=
  ⟨d.components.getD 0 0, d.components.getD 1 0, d.components.getD 2 0⟩

def old_hindu_lunar_from_date (d : Date) : OldHinduLunar :=
  ⟨d.components.getD 0 0, d.components.getD 1 0,
   decide (d.components.getD 2 0 = 1), d.components.getD 3 0⟩

/-- `Calendar::to_date` per implementing type. -/
def Gregorian.to_date (g : Gregorian) : Date :=
  ⟨"gregorian", [g.year, g.month, g.day], ["year", "month", "day"],
   GREGORIAN_MONTH_NAMES⟩

def Iso.to_date (d : Iso) : Date :=
  ⟨"iso", [d.year, d.week, d.day], ["year", "week", "day"], []⟩

def Julian.to_date (d : Julian) : Date :=
  ⟨"julian", [d.year, d.month, d.day], ["year", "month", "day"],
   GREGORIAN_MONTH_NAMES⟩

def Islamic.to_date (d : Islamic) : Date :=
  ⟨"islamic", [d.year, d.month, d.day], ["year", "month", "day"],
   ISLAMIC_MONTH_NAMES⟩

def Hebrew.to_date (d : Hebrew) : Date :=
  ⟨"hebrew", [d.year, d.month, d.day], ["year", "month", "day"],
   HEBREW_MONTH_NAMES⟩

def MayanLongCount.to_date (d : MayanLongCount) : Date :=
  ⟨"mayanLongCount", [d.baktun, d.katun, d.tun, d.uinal, d.kin],
   ["baktun", "katun", "tun", "uinal", "kin"], []⟩

def MayanHaab.to_date (d : MayanHaab) : Date :=
  ⟨"mayanHaab", [d.day, d.month], ["day", "month"], []⟩

def MayanTzolkin.to_date (d : MayanTzolkin) : Date :=
  ⟨"mayanTzolkin", [d.number, d.name], ["number", "name"], []⟩

def French.to_date (d : French) : Date :=
  ⟨"french", [d.year, d.month, d.day], ["year", "month", "day"],
   FRENCH_MONTH_NAMES⟩

def OldHinduSolar.to_date (d : OldHinduSolar) : Date :=
  ⟨"oldHinduSolar", [d.year, d.month, d.day], ["year", "month", "day"],
   HINDU_SOLAR_MONTH_NAMES⟩

/-- NB: the source labels the Old Hindu Lunar generic date `"gregorian"` and
omits the `leap_month` component while listing four component names. -/
def OldHinduLunar.to_date (d : OldHinduLunar) : Date :=
  ⟨"gregorian", [d.year, d.month, d.day], ["year", "month", "leapMonth", "day"],
   HINDU_LUNAR_MONTH_NAMES⟩

/-- `Calendar::to_absolute` per implementing type; `none` models the
unconditional `panic!` of the Mayan Haab and Tzolkin implementations and
the `.unwrap()` panic of the Old Hindu Lunar implementation on `None`. -/
def CalendarDate.to_absolute : CalendarDate → Option Int
  | .gregorian d => some (absolute_from_gregorian d)
  | .iso d => some (absolute_from_iso d)
  | .julian d => some (absolute_from_julian d)
  | .islamic d => some (absolute_from_islamic d)
  | .hebrew d => some (absolute_from_hebrew d)
  | .mayanLongCount d => some (absolute_from_mayan_long_count d)
  | .mayanHaab _ => none
  | .mayanTzolkin _ => none
  | .french d => some (absolute_from_french d)
  | .oldHinduSolar d => some (absolute_from_old_hindu_solar d)
  | .oldHinduLunar d => absolute_from_old_hindu_lunar d

/-- `Calendar::to_date` on the boxed value. -/
def CalendarDate.to_date : CalendarDate → Date
  | .gregorian d => d.to_date
  | .iso d => d.to_date
  | .julian d => d.to_date
  | .islamic d => d.to_date
  | .hebrew d => d.to_date
  | .mayanLongCount d => d.to_date
  | .mayanHaab d => d.to_date
  | .mayanTzolkin d => d.to_date
  | .french d => d.to_date
  | .oldHinduSolar d => d.to_date
  | .oldHinduLunar d => d.to_date

/-- `Date::to_calendar_date`: dispatch on the tag string; the wildcard arm
treats any unrecognized tag as Gregorian. -/
def Date.to_calendar_date (d : Date) : CalendarDate :=
  if d.calendar = "gregorian" then .gregorian (gregorian_from_date d)
  else if d.calendar = "iso" then .iso (iso_from_date d)
  else if d.calendar = "julian" then .julian (julian_from_date d)
  else if d.calendar = "islamic" then .islamic (islamic_from_date d)
  else if d.calendar = "hebrew" then .hebrew (hebrew_from_date d)
  else if d.calendar = "mayanLongCount" then .mayanLongCount (mayan_long_count_from_date d)
  else if d.calendar = "mayanHaab" then .mayanHaab (mayan_haab_from_date d)
  else if d.calendar = "mayanTzolkin" then .mayanTzolkin (mayan_tzolkin_from_date d)
  else if d.calendar = "french" then .french (french_from_date d)
  else if d.calendar = "oldHinduSolar" then .oldHinduSolar (old_hindu_solar_from_date d)
  else if d.calendar = "oldHinduLunar" then .oldHinduLunar (old_hindu_lunar_from_date d)
  else .gregorian (gregorian_from_date d)

/-- `Date::to_absolute`. -/
def Date.to_absolute (d : Date) : Option Int :=
  d.to_calendar_date.to_absolute

/-- `Date::convert_to`: round trip through the absolute date, then dispatch
on the target tag (wildcard arm: Gregorian). -/
def Date.convert_to (d : Date) (calendar : String) : Option Date :=
  (d.to_absolute).map (fun date =>
    if calendar = "gregorian" then (gregorian_from_absolute date).to_date
    else if calendar = "iso" then (iso_from_absolute date).to_date
    else if calendar = "julian" then (julian_from_absolute date).to_date
    else if calendar = "islamic" then (islamic_from_absolute date).to_date
    else if calendar = "hebrew" then (hebrew_from_absolute date).to_date
    else if calendar = "mayanLongCount" then (mayan_long_count_from_absolute date).to_date
    else if calendar = "mayanHaab" then (mayan_haab_from_absolute date).to_date
    else if calendar = "mayanTzolkin" then (mayan_tzolkin_from_absolute date).to_date
    else if calendar = "french" then (french_from_absolute date).to_date
    else if calendar = "oldHinduSolar" then (old_hindu_solar_from_absolute date).to_date
    else if calendar = "oldHinduLunar" then (old_hindu_lunar_from_absolute date).to_date
    else (gregorian_from_absolute date).to_date)

/-! ## Bridging lemmas for the numeric primitives -/

theorem sumWhile_false (f : Int → Int) (p : Int → Bool) (k : Int) (n : Nat)
    (h : p k = false) : sumWhile f p k n = 0 := by
  cases n <;> simp [sumWhile, h]

theorem sumWhile_one_nonneg (p : Int → Bool) (k : Int) (n : Nat) :
    0 ≤ sumWhile (fun _ => 1) p k n := by
  induction n generalizing k with
  | zero => simp [sumWhile]
  | succ n ih =>
      simp only [sumWhile]
      split
      · have := ih (k + 1)
        omega
      · omega

theorem tmod_eq_emod_of_nonneg (x b : Int) (hx : 0 ≤ x) (hb : 0 < b) :
    x.tmod b = x % b := by
  obtain ⟨n, rfl⟩ := Int.eq_ofNat_of_zero_le hx
  obtain ⟨m, rfl⟩ := Int.eq_ofNat_of_zero_le (le_of_lt hb)
  rfl

theorem neg_lt_tmod (a b : Int) (hb : 0 < b) : -b < a.tmod b := by
  obtain ⟨m, rfl⟩ := Int.eq_ofNat_of_zero_le (le_of_lt hb)
  have hm : 0 < m := by exact_mod_cast hb
  cases a with
  | ofNat n =>
      have h1 : 0 ≤ (Int.ofNat n).tmod ↑m :=
        Int.tmod_nonneg _ (Int.ofNat_nonneg n)
      omega
  | negSucc n =>
      have h1 : (Int.negSucc n).tmod ↑m = -(((n + 1) % m : Nat) : Int) := rfl
      have h2 : (n + 1) % m < m := Nat.mod_lt _ hm
      rw [h1]
      omega

theorem modulus_eq_emod (a b : Int) (hb : 0 < b) : modulus a b = a % b := by
  unfold modulus
  have h1 : -b < a.tmod b := neg_lt_tmod a b hb
  have h3 : (a.tmod b + b).tmod b = (a.tmod b + b) % b :=
    tmod_eq_emod_of_nonneg _ _ (by omega) hb
  have h4 : a.tmod b = a - b * a.tdiv b := by
    have := Int.tdiv_add_tmod a b
    linarith
  rw [h3, h4, show a - b * a.tdiv b + b = a + b * (1 - a.tdiv b) by ring,
    Int.add_mul_emod_self_left]

theorem floor_div_eq_ediv (a b : Int) (hb : 0 ≤ b) : floor_div a b = a / b :=
  Int.fdiv_eq_ediv a hb

/-! ## Gregorian lemmas -/

theorem gregorian_day_shift (y m d : Int) :
    absolute_from_gregorian ⟨y, m, d⟩ = d + (absolute_from_gregorian ⟨y, m, 1⟩ - 1) := by
  simp only [absolute_from_gregorian]
  ring

/-- The inverse conversion computes the day field as the difference to the
start of the computed month, so the forward conversion recovers the input
absolute date. -/
theorem gregorian_roundtrip (a : Int) :
    absolute_from_gregorian (gregorian_from_absolute a) = a := by
  simp only [gregorian_from_absolute]
  rw [gregorian_day_shift]
  ring

theorem gregorian_jan1 (y : Int) :
    absolute_from_gregorian ⟨y, 1, 1⟩ =
      1 + 365 * (y - 1) + (y - 1) / 4 - (y - 1) / 100 + (y - 1) / 400 := by
  simp only [absolute_from_gregorian]
  rw [sumWhile_false _ _ _ _ (by rfl),
    floor_div_eq_ediv _ _ (by norm_num), floor_div_eq_ediv _ _ (by norm_num),
    floor_div_eq_ediv _ _ (by norm_num)]
  ring

/-- Arithmetic core of the 400-year-cycle year extraction: the extracted year
is bracketed by its January 1 day counts. -/
theorem greg_year_core (a b c d e Y : Int)
    (hb : b = (a-1)/146097) (hc : c = (a-1)%146097/36524)
    (hd : d = (a-1)%146097%36524/1461) (he : e = (a-1)%146097%36524%1461/365)
    (hY : Y = if c = 4 ∨ e = 4 then 400*b+100*c+4*d+e else 400*b+100*c+4*d+e+1) :
    1 + 365*(Y-1) + (Y-1)/4 - (Y-1)/100 + (Y-1)/400 ≤ a ∧
      a < 1 + 365*(Y+1-1) + (Y+1-1)/4 - (Y+1-1)/100 + (Y+1-1)/400 := by
  rw [show Y + 1 - 1 = Y by ring]
  by_cases hif : c = 4 ∨ e = 4
  · rw [if_pos hif] at hY
    have k1 : (Y-1)/4 = (e-1)/4 + (100*b+25*c+d) := by
      rw [show Y - 1 = (e-1) + (100*b+25*c+d)*4 by omega,
        Int.add_mul_ediv_right _ _ (by norm_num)]
    have k2 : (Y-1)/100 = (4*d+e-1)/100 + (4*b+c) := by
      rw [show Y - 1 = (4*d+e-1) + (4*b+c)*100 by omega,
        Int.add_mul_ediv_right _ _ (by norm_num)]
    have k3 : (Y-1)/400 = (100*c+4*d+e-1)/400 + b := by
      rw [show Y - 1 = (100*c+4*d+e-1) + b*400 by omega,
        Int.add_mul_ediv_right _ _ (by norm_num)]
    have k4 : Y/4 = e/4 + (100*b+25*c+d) := by
      rw [show Y = e + (100*b+25*c+d)*4 by omega,
        Int.add_mul_ediv_right _ _ (by norm_num)]
    have k5 : Y/100 = (4*d+e)/100 + (4*b+c) := by
      rw [show Y = (4*d+e) + (4*b+c)*100 by omega,
        Int.add_mul_ediv_right _ _ (by norm_num)]
    have k6 : Y/400 = (100*c+4*d+e)/400 + b := by
      rw [show Y = (100*c+4*d+e) + b*400 by omega,
        Int.add_mul_ediv_right _ _ (by norm_num)]
    rcases hif with h4 | h4 <;> (constructor <;> omega)
  · rw [if_neg hif] at hY
    push_neg at hif
    obtain ⟨hc4, he4⟩ := hif
    have hbnd : 0 ≤ c ∧ c ≤ 3 ∧ 0 ≤ d ∧ d ≤ 24 ∧ 0 ≤ e ∧ e ≤ 3 := by omega
    have s1 : e/4 = 0 := by omega
    have s2 : (4*d+e)/100 = 0 := by omega
    have s3 : (100*c+4*d+e)/400 = 0 := by omega
    have s4 : 0 ≤ (e+1)/4 ∧ (e+1)/4 ≤ 1 := by omega
    have s5 : (4*d+e+1)/100 ≤ (e+1)/4 := by
      obtain ⟨c1, c2, c3, c4, c5, c6⟩ := hbnd
      clear hb hc hd he hY hc4 he4 s1 s2 s3 s4
      omega
    have s6 : 0 ≤ (100*c+4*d+e+1)/400 ∧ (100*c+4*d+e+1)/400 ≤ (4*d+e+1)/100 := by
      obtain ⟨c1, c2, c3, c4, c5, c6⟩ := hbnd
      clear hb hc hd he hY hc4 he4 s1 s2 s3 s4 s5
      omega
    have k1 : (Y-1)/4 = e/4 + (100*b+25*c+d) := by
      rw [show Y - 1 = e + (100*b+25*c+d)*4 by omega,
        Int.add_mul_ediv_right _ _ (by norm_num)]
    have k2 : (Y-1)/100 = (4*d+e)/100 + (4*b+c) := by
      rw [show Y - 1 = (4*d+e) + (4*b+c)*100 by omega,
        Int.add_mul_ediv_right _ _ (by norm_num)]
    have k3 : (Y-1)/400 = (100*c+4*d+e)/400 + b := by
      rw [show Y - 1 = (100*c+4*d+e) + b*400 by omega,
        Int.add_mul_ediv_right _ _ (by norm_num)]
    have k4 : Y/4 = (e+1)/4 + (100*b+25*c+d) := by
      rw [show Y = (e+1) + (100*b+25*c+d)*4 by omega,
        Int.add_mul_ediv_right _ _ (by norm_num)]
    have k5 : Y/100 = (4*d+e+1)/100 + (4*b+c) := by
      rw [show Y = (4*d+e+1) + (4*b+c)*100 by omega,
        Int.add_mul_ediv_right _ _ (by norm_num)]
    have k6 : Y/400 = (100*c+4*d+e+1)/400 + b := by
      rw [show Y = (100*c+4*d+e+1) + b*400 by omega,
        Int.add_mul_ediv_right _ _ (by norm_num)]
    constructor <;> omega

/-- The year extracted by `gregorian_from_absolute` brackets the input:
January 1 of that year is on or before the input date, and January 1 of the
next year is after it. -/
theorem gregorian_year_bracket (a : Int) :
    absolute_from_gregorian ⟨(gregorian_from_absolute a).year, 1, 1⟩ ≤ a ∧
      a < absolute_from_gregorian ⟨(gregorian_from_absolute a).year + 1, 1, 1⟩ := by
  simp only [gregorian_from_absolute]
  rw [gregorian_jan1, gregorian_jan1,
    floor_div_eq_ediv _ _ (by norm_num : (0:Int) ≤ 146097),
    floor_div_eq_ediv _ _ (by norm_num : (0:Int) ≤ 36524),
    floor_div_eq_ediv _ _ (by norm_num : (0:Int) ≤ 1461),
    floor_div_eq_ediv _ _ (by norm_num : (0:Int) ≤ 365),
    modulus_eq_emod _ _ (by norm_num : (0:Int) < 146097),
    modulus_eq_emod _ _ (by norm_num : (0:Int) < 36524),
    modulus_eq_emod _ _ (by norm_num : (0:Int) < 1461)]
  exact greg_year_core a _ _ _ _ _ rfl rfl rfl rfl rfl

/-! ## ISO lemmas -/

theorem absolute_from_iso_expand (y w d : Int) :
    absolute_from_iso ⟨y, w, d⟩ = absolute_from_iso ⟨y, 1, 1⟩ + 7 * (w - 1) + (d - 1) := by
  simp only [absolute_from_iso, kday_on_or_before]
  ring

theorem iso_start_mod7 (y : Int) : absolute_from_iso ⟨y, 1, 1⟩ % 7 = 1 % 7 := by
  simp only [absolute_from_iso, kday_on_or_before]
  rw [modulus_eq_emod _ _ (by norm_num : (0:Int) < 7)]
  omega

theorem iso_start_le_gregorian (y : Int) :
    absolute_from_iso ⟨y, 1, 1⟩ ≤ absolute_from_gregorian ⟨y, 1, 1⟩ + 3 := by
  simp only [absolute_from_iso, kday_on_or_before]
  rw [modulus_eq_emod _ _ (by norm_num : (0:Int) < 7),
    gregorian_day_shift y 1 4]
  omega

/-- ISO round trip: the start of ISO week 1 is a Monday on or before the
input, and the week and day fields are exactly the quotient and remainder of
the offset from it. -/
theorem iso_roundtrip (a : Int) : absolute_from_iso (iso_from_absolute a) = a := by
  have hbr := (gregorian_year_bracket (a - 3)).1
  simp only [iso_from_absolute]
  split
  · next h =>
      rw [absolute_from_iso_expand,
        Int.tdiv_eq_ediv (by omega) (by norm_num : (0:Int) ≤ 7),
        modulus_eq_emod _ _ (by norm_num : (0:Int) < 7)]
      have h7 := iso_start_mod7 ((gregorian_from_absolute (a - 3)).year + 1)
      split <;> omega
  · next h =>
      have hle : absolute_from_iso ⟨(gregorian_from_absolute (a - 3)).year, 1, 1⟩ ≤ a := by
        have := iso_start_le_gregorian (gregorian_from_absolute (a - 3)).year
        omega
      rw [absolute_from_iso_expand,
        Int.tdiv_eq_ediv (by omega) (by norm_num : (0:Int) ≤ 7),
        modulus_eq_emod _ _ (by norm_num : (0:Int) < 7)]
      have h7 := iso_start_mod7 (gregorian_from_absolute (a - 3)).year
      split <;> omega

/-! ## Julian, Islamic, French, Hebrew round trips -/

theorem julian_day_shift (y m d : Int) :
    absolute_from_julian ⟨y, m, d⟩ = d + (absolute_from_julian ⟨y, m, 1⟩ - 1) := by
  simp only [absolute_from_julian]
  ring

theorem julian_roundtrip (a : Int) :
    absolute_from_julian (julian_from_absolute a) = a := by
  simp only [julian_from_absolute]
  rw [julian_day_shift]
  ring

theorem islamic_day_shift (y m d : Int) :
    absolute_from_islamic ⟨y, m, d⟩ = d + (absolute_from_islamic ⟨y, m, 1⟩ - 1) := by
  simp only [absolute_from_islamic]
  ring

/-- Islamic round trip above the sentinel range. -/
theorem islamic_roundtrip (a : Int) (h : 227014 ≤ a) :
    absolute_from_islamic (islamic_from_absolute a) = a := by
  simp only [islamic_from_absolute]
  rw [if_neg (by omega)]
  rw [islamic_day_shift]
  ring

theorem french_day_shift (y m d : Int) :
    absolute_from_french ⟨y, m, d⟩ = d + (absolute_from_french ⟨y, m, 1⟩ - 1) := by
  simp only [absolute_from_french]
  ring

/-- French round trip above the sentinel range. -/
theorem french_roundtrip (a : Int) (h : 654415 ≤ a) :
    absolute_from_french (french_from_absolute a) = a := by
  simp only [french_from_absolute]
  rw [if_neg (by omega)]
  rw [french_day_shift]
  ring

theorem hebrew_day_shift (y m d : Int) :
    absolute_from_hebrew ⟨y, m, d⟩ = d + (absolute_from_hebrew ⟨y, m, 1⟩ - 1) := by
  simp only [absolute_from_hebrew]
  by_cases h : m < 7 <;> simp only [if_pos, if_neg, h, reduceIte] <;> ring

theorem hebrew_roundtrip (a : Int) :
    absolute_from_hebrew (hebrew_from_absolute a) = a := by
  simp only [hebrew_from_absolute]
  rw [hebrew_day_shift]
  ring

/-! ## Mayan Long Count round trip -/

theorem mayan_long_count_roundtrip (a : Int) :
    absolute_from_mayan_long_count (mayan_long_count_from_absolute a) = a := by
  simp only [mayan_long_count_from_absolute, absolute_from_mayan_long_count,
    MAYAN_DAYS_BEFORE_ABSOLUTE_ZERO]
  rw [floor_div_eq_ediv _ _ (by norm_num : (0:Int) ≤ 144000),
    floor_div_eq_ediv _ _ (by norm_num : (0:Int) ≤ 7200),
    floor_div_eq_ediv _ _ (by norm_num : (0:Int) ≤ 360),
    floor_div_eq_ediv _ _ (by norm_num : (0:Int) ≤ 20),
    modulus_eq_emod _ _ (by norm_num : (0:Int) < 144000),
    modulus_eq_emod _ _ (by norm_num : (0:Int) < 7200),
    modulus_eq_emod _ _ (by norm_num : (0:Int) < 360),
    modulus_eq_emod _ _ (by norm_num : (0:Int) < 20)]
  omega

/-! ## Sentinel behaviour of Islamic and French inverse conversions -/

theorem islamic_sentinel (a : Int) (h : a < 227014) :
    islamic_from_absolute a = ⟨0, 0, 0⟩ := by
  simp only [islamic_from_absolute]
  rw [if_pos h]

theorem french_sentinel (a : Int) (h : a < 654415) :
    french_from_absolute a = ⟨0, 0, 0⟩ := by
  simp only [french_from_absolute]
  rw [if_pos h]

theorem one_le_one_add_sumWhile (p : Int → Bool) (k : Int) (n : Nat) :
    1 ≤ 1 + sumWhile (fun _ => 1) p k n := by
  have := sumWhile_one_nonneg p k n
  omega

theorem islamic_no_sentinel (a : Int) (h : 227014 ≤ a) :
    1 ≤ (islamic_from_absolute a).month := by
  simp only [islamic_from_absolute]
  rw [if_neg (by omega)]
  exact one_le_one_add_sumWhile _ _ _

theorem french_no_sentinel (a : Int) (h : 654415 ≤ a) :
    1 ≤ (french_from_absolute a).month := by
  simp only [french_from_absolute]
  rw [if_neg (by omega)]
  exact one_le_one_add_sumWhile _ _ _

/-! ## Hebrew postponement invariant -/

theorem postpone_mod7 (alt : Int) :
    modulus (if modulus alt 7 ∈ ([0, 3, 5] : List Int) then alt + 1 else alt) 7 ≠ 0 ∧
      modulus (if modulus alt 7 ∈ ([0, 3, 5] : List Int) then alt + 1 else alt) 7 ≠ 3 ∧
      modulus (if modulus alt 7 ∈ ([0, 3, 5] : List Int) then alt + 1 else alt) 7 ≠ 5 := by
  rw [modulus_eq_emod _ 7 (by norm_num), modulus_eq_emod alt 7 (by norm_num)]
  split
  · next h1 =>
      simp only [List.mem_cons, List.not_mem_nil, or_false] at h1
      rcases h1 with h1 | h1 | h1 <;> omega
  · next h1 =>
      simp only [List.mem_cons, List.not_mem_nil, or_false] at h1
      push_neg at h1
      omega

/-- C6: for every Hebrew year, the year-start day computed by
`hebrew_calendar_elapsed_days` never falls on Sunday, Wednesday or Friday:
its value mod 7 is not 0, 3 or 5. -/
theorem claim6_hebrew_year_start_never_sun_wed_fri (y : Int) :
    modulus (hebrew_calendar_elapsed_days y) 7 ≠ 0 ∧
      modulus (hebrew_calendar_elapsed_days y) 7 ≠ 3 ∧
      modulus (hebrew_calendar_elapsed_days y) 7 ≠ 5 := by
  simp only [hebrew_calendar_elapsed_days]
  exact postpone_mod7 _

/-! ## Claim theorems -/

/-- C1 (counterexample): the round trip
`to_absolute(from_absolute(a)) = a` fails for the Old Hindu Solar calendar
at `a = 97486905`, a date at which sunrise coincides exactly with a mean
solar-month boundary.  (The IEEE-754 evaluation of the source fails at this
input as well, returning a date 31 days later.) -/
theorem claim1_roundtrip_counterexample :
    absolute_from_old_hindu_solar (old_hindu_solar_from_absolute 97486905) ≠ 97486905 := by
  decide

set_option maxRecDepth 100000 in
/-- C1 (amended): the round trip holds for every absolute date for the
Gregorian, ISO week, Julian, Hebrew and Mayan Long Count calendars, and for
every date on or after the sentinel boundary for Islamic (`a ≥ 227014`) and
French (`a ≥ 654415`).  For the Old Hindu Solar and Lunar calendars it holds
at typical dates (spot check at `a = 0`) but not universally: the solar
round trip returns `a + 1` at `a = 97486905`. -/
theorem claim1_roundtrip_amended :
    (∀ a : Int,
      absolute_from_gregorian (gregorian_from_absolute a) = a ∧
      absolute_from_iso (iso_from_absolute a) = a ∧
      absolute_from_julian (julian_from_absolute a) = a ∧
      absolute_from_hebrew (hebrew_from_absolute a) = a ∧
      absolute_from_mayan_long_count (mayan_long_count_from_absolute a) = a ∧
      (227014 ≤ a → absolute_from_islamic (islamic_from_absolute a) = a) ∧
      (654415 ≤ a → absolute_from_french (french_from_absolute a) = a)) ∧
    absolute_from_old_hindu_solar (old_hindu_solar_from_absolute 0) = 0 ∧
    absolute_from_old_hindu_lunar (old_hindu_lunar_from_absolute 0) = some 0 ∧
    absolute_from_old_hindu_solar (old_hindu_solar_from_absolute 97486905) = 97486906 := by
  exact ⟨fun a =>
    ⟨gregorian_roundtrip a, iso_roundtrip a, julian_roundtrip a, hebrew_roundtrip a,
      mayan_long_count_roundtrip a, islamic_roundtrip a, french_roundtrip a⟩,
    by decide, by decide, by decide⟩

/-- C1 (witness): the conditional Islamic and French round trips applied at
a concrete in-range date. -/
theorem claim1_roundtrip_amended_witness :
    (227014 : Int) ≤ 800000 ∧
      absolute_from_islamic (islamic_from_absolute 800000) = 800000 ∧
      (654415 : Int) ≤ 800000 ∧
      absolute_from_french (french_from_absolute 800000) = 800000 :=
  ⟨by norm_num, (claim1_roundtrip_amended.1 800000).2.2.2.2.2.1 (by norm_num),
    by norm_num, (claim1_roundtrip_amended.1 800000).2.2.2.2.2.2 (by norm_num)⟩

set_option maxRecDepth 100000 in
/-- C2: converting a Gregorian date to Mayan Haab and back dies on the
unconditional `panic!` in `MayanHaab::to_absolute` (modelled as `none`);
converting to Old Hindu Lunar produces a generic date mislabeled
`"gregorian"` that drops the leap-month component, so converting it back
interprets the Hindu components as a Gregorian date and does not restore
the original. -/
theorem claim2_convert_not_identity :
    ((Gregorian.to_date ⟨2024, 1, 1⟩).convert_to "mayanHaab").bind
        (fun d => d.convert_to "gregorian") = none ∧
    ((Gregorian.to_date ⟨2024, 1, 1⟩).convert_to "oldHinduLunar").map Date.calendar
        = some "gregorian" ∧
    ((Gregorian.to_date ⟨2024, 1, 1⟩).convert_to "oldHinduLunar").bind
        (fun d => d.convert_to "gregorian")
      = some (Gregorian.to_date ⟨5124, 9, 20⟩) ∧
    Gregorian.to_date ⟨5124, 9, 20⟩ ≠ Gregorian.to_date ⟨2024, 1, 1⟩ := by
  exact ⟨by decide, by decide, by decide, by decide⟩

/-- C3 (counterexample): absolute date 227014 is strictly before the first
Islamic day (`absolute_from_islamic {1,1,1} = 227015`), yet
`islamic_from_absolute` returns the non-sentinel date `{0, 12, 29}` there
rather than the all-zero sentinel. -/
theorem claim3_islamic_boundary_counterexample :
    islamic_from_absolute 227014 = ⟨0, 12, 29⟩ ∧
      absolute_from_islamic ⟨1, 1, 1⟩ = 227015 ∧
      (⟨0, 12, 29⟩ : Islamic) ≠ ⟨0, 0, 0⟩ := by
  decide

/-- C3 (amended): `islamic_from_absolute` returns the all-zero sentinel
exactly for `a < 227014` — one day short of the calendar's first day
227015, so the day 227014 yields the non-sentinel `{0, 12, 29}` — and a
date with month ≥ 1 for every `a ≥ 227014`; `french_from_absolute` returns
the sentinel exactly for `a < 654415`, which is precisely its first day
(`absolute_from_french {1,1,1} = 654415`), and a non-sentinel date from the
first day on.  Neither function fails on any input. -/
theorem claim3_sentinel_amended :
    (∀ a : Int, a < 227014 → islamic_from_absolute a = ⟨0, 0, 0⟩) ∧
    islamic_from_absolute 227014 = ⟨0, 12, 29⟩ ∧
    (∀ a : Int, 227014 ≤ a → islamic_from_absolute a ≠ ⟨0, 0, 0⟩) ∧
    (∀ a : Int, a < 654415 → french_from_absolute a = ⟨0, 0, 0⟩) ∧
    (∀ a : Int, 654415 ≤ a → french_from_absolute a ≠ ⟨0, 0, 0⟩) ∧
    absolute_from_islamic ⟨1, 1, 1⟩ = 227015 ∧
    absolute_from_french ⟨1, 1, 1⟩ = 654415 := by
  refine ⟨islamic_sentinel, by decide, ?_, french_sentinel, ?_, by decide, by decide⟩
  · intro a ha hEq
    have h2 := islamic_no_sentinel a ha
    rw [hEq] at h2
    have h3 : (⟨0, 0, 0⟩ : Islamic).month = 0 := rfl
    omega
  · intro a ha hEq
    have h2 := french_no_sentinel a ha
    rw [hEq] at h2
    have h3 : (⟨0, 0, 0⟩ : French).month = 0 := rfl
    omega

/-- C3 (witness): the amended sentinel behaviour at concrete inputs. -/
theorem claim3_sentinel_amended_witness :
    islamic_from_absolute 100 = ⟨0, 0, 0⟩ ∧
      islamic_from_absolute 227015 ≠ ⟨0, 0, 0⟩ ∧
      french_from_absolute 100 = ⟨0, 0, 0⟩ ∧
      french_from_absolute 700000 ≠ ⟨0, 0, 0⟩ :=
  ⟨claim3_sentinel_amended.1 100 (by norm_num),
    claim3_sentinel_amended.2.2.1 227015 (by norm_num),
    claim3_sentinel_amended.2.2.2.1 100 (by norm_num),
    claim3_sentinel_amended.2.2.2.2.1 700000 (by norm_num)⟩

/-- C4: the combined Haab+Tzolkin lookup returns an incorrect day.  Day 1
has Haab `{11,8}` and Tzolkin `{11,3}`, so the latest matching day on or
before 1 is 1 itself; the code instead returns `-14599`, whose Tzolkin
representation is `{10,3}`, not `{11,3}`.  The root cause is
`mayan_tzolkin_difference` computing `d2.number - d2.number` (always zero)
instead of `d2.number - d1.number`, contradicting its own documentation. -/
theorem claim4_calendar_round_bug :
    mayan_haab_from_absolute 1 = ⟨11, 8⟩ ∧
      mayan_tzolkin_from_absolute 1 = ⟨11, 3⟩ ∧
      mayan_haab_tzolkin_on_or_before ⟨11, 8⟩ ⟨11, 3⟩ 1 = some (-14599) ∧
      mayan_tzolkin_from_absolute (-14599) ≠ ⟨11, 3⟩ := by
  decide

/-- C5: if `absolute_from_old_hindu_lunar` returns `some a` then the forward
conversion of `a` is exactly the input date (the candidate is verified by
full equality before being accepted), and if no absolute date maps forward
to the input date the function returns `none`. -/
theorem claim5_old_hindu_lunar_verified :
    (∀ (d : OldHinduLunar) (a : Int),
        absolute_from_old_hindu_lunar d = some a → old_hindu_lunar_from_absolute a = d) ∧
    (∀ d : OldHinduLunar, (∀ a : Int, old_hindu_lunar_from_absolute a ≠ d) →
        absolute_from_old_hindu_lunar d = none) := by
  constructor
  · intro d a h
    simp only [absolute_from_old_hindu_lunar] at h
    split at h
    · next hv =>
        cases h
        exact hv
    · next hv =>
        cases h
  · intro d hall
    simp only [absolute_from_old_hindu_lunar]
    rw [if_neg (hall _)]

set_option maxRecDepth 100000 in
/-- C5 (witness): the inverse applied to the lunar date of absolute day 0
returns `some 0`, and the theorem recovers the forward conversion. -/
theorem claim5_old_hindu_lunar_verified_witness :
    old_hindu_lunar_from_absolute 0 = ⟨3101, 10, false, 19⟩ :=
  claim5_old_hindu_lunar_verified.1 ⟨3101, 10, false, 19⟩ 0 (by decide)

/-- C7: `hebrew_from_absolute` computes its year approximation with
`modulus`, not `floor_div`: at `a = -1373029` the epoch-adjusted value is
400, `floor_div(400, 366) = 1` but the code computes
`modulus(400, 366) = 34` and returns the impossible Hebrew date
`{34, 7, -11651}` with a negative day. -/
theorem claim7_hebrew_approx_uses_modulus :
    floor_div ((-1373029 : Int) + 1373429) 366 = 1 ∧
      modulus ((-1373029 : Int) + 1373429) 366 = 34 ∧
      hebrew_from_absolute (-1373029) = ⟨34, 7, -11651⟩ := by
  decide

/-- C9: requesting an absolute date from a bare Mayan Haab or Tzolkin value
always fails fatally and unconditionally (`panic!`, modelled as `none`),
for every input value. -/
theorem claim9_bare_cyclical_to_absolute_fails :
    (∀ h : MayanHaab, (CalendarDate.mayanHaab h).to_absolute = none) ∧
    (∀ t : MayanTzolkin, (CalendarDate.mayanTzolkin t).to_absolute = none) :=
  ⟨fun _ => rfl, fun _ => rfl⟩

/-- C10: a `Date` whose calendar tag is none of the eleven recognized names
is dispatched by the wildcard arm of `to_calendar_date` and `convert_to`
exactly as if its tag were `"gregorian"`. -/
theorem claim10_unknown_tag_is_gregorian (d : Date) (c : String)
    (h1 : d.calendar ≠ "gregorian") (h2 : d.calendar ≠ "iso")
    (h3 : d.calendar ≠ "julian") (h4 : d.calendar ≠ "islamic")
    (h5 : d.calendar ≠ "hebrew") (h6 : d.calendar ≠ "mayanLongCount")
    (h7 : d.calendar ≠ "mayanHaab") (h8 : d.calendar ≠ "mayanTzolkin")
    (h9 : d.calendar ≠ "french") (h10 : d.calendar ≠ "oldHinduSolar")
    (h11 : d.calendar ≠ "oldHinduLunar") :
    d.to_calendar_date
        = Date.to_calendar_date ⟨"gregorian", d.components, d.component_names, d.month_names⟩ ∧
    d.convert_to c
        = Date.convert_to ⟨"gregorian", d.components, d.component_names, d.month_names⟩ c := by
  have hR : Date.to_calendar_date ⟨"gregorian", d.components, d.component_names, d.month_names⟩
      = CalendarDate.gregorian
          (gregorian_from_date ⟨"gregorian", d.components, d.component_names, d.month_names⟩) :=
    rfl
  have hcomp : gregorian_from_date ⟨"gregorian", d.components, d.component_names, d.month_names⟩
      = gregorian_from_date d := by
    simp [gregorian_from_date]
  have key : d.to_calendar_date
      = Date.to_calendar_date ⟨"gregorian", d.components, d.component_names, d.month_names⟩ := by
    rw [hR, hcomp]
    simp only [Date.to_calendar_date]
    rw [if_neg h1, if_neg h2, if_neg h3, if_neg h4, if_neg h5, if_neg h6, if_neg h7,
      if_neg h8, if_neg h9, if_neg h10, if_neg h11]
  exact ⟨key, by simp only [Date.convert_to, Date.to_absolute, key]⟩

/-- C10 (witness): the unrecognized tag `"maya"` is treated as Gregorian. -/
theorem claim10_unknown_tag_witness :
    Date.to_calendar_date ⟨"maya", [2024, 1, 1], [], []⟩
        = Date.to_calendar_date ⟨"gregorian", [2024, 1, 1], [], []⟩ ∧
    Date.convert_to ⟨"maya", [2024, 1, 1], [], []⟩ "julian"
        = Date.convert_to ⟨"gregorian", [2024, 1, 1], [], []⟩ "julian" :=
  claim10_unknown_tag_is_gregorian ⟨"maya", [2024, 1, 1], [], []⟩ "julian"
    (by decide) (by decide) (by decide) (by decide) (by decide) (by decide)
    (by decide) (by decide) (by decide) (by decide) (by decide)

end Calendars
